import Mathlib

/-!
Verification of the viralreels job-processing and video-assembly pipeline
(`src/app.py`) against its natural-language specification.

The Python source is shallowly embedded: pure helper functions become Lean
functions over `List Char` (text) and `ℚ` (durations); the external tools
(ffmpeg, ffprobe, the ElevenLabs TTS HTTP call, the Facebook upload) are
modelled as explicit outcome oracles passed in as parameters; database rows
become structures and the `UPDATE` statements become explicit result values.
-/

namespace ViralReels

/-! ## Text splitting and word wrap (`wrap_text`, app.py:3653-3673) -/

/-- Python `text.split()`: split on runs of whitespace, dropping empty words.
`cur` accumulates the characters of the word currently being read, reversed. -/
def pySplitAux : List Char → List Char → List (List Char)
  | [], cur => if cur.isEmpty then [] else [cur.reverse]
  | c :: cs, cur =>
    if c.isWhitespace then
      (if cur.isEmpty then [] else [cur.reverse]) ++ pySplitAux cs []
    else
      pySplitAux cs (c :: cur)

/-- `text.split()` from the first line of `wrap_text`. -/
def pySplit (text : List Char) : List (List Char) := pySplitAux text []

/-- `sep.join(xs)`: interleave a separator between list elements. -/
def ijoin (sep : List α) : List (List α) → List α
  | [] => []
  | [x] => x
  | x :: y :: t => x ++ sep ++ ijoin sep (y :: t)

/-- The greedy line-breaking loop of `wrap_text` (app.py:3660-3671), keeping
each line as its list of words.  State: remaining words, `current_line`,
`current_length`. -/
def wrapAux (maxChars : Nat) : List (List Char) → List (List Char) → Nat →
    List (List (List Char))
  | [], cur, _ => if cur.isEmpty then [] else [cur]
  | w :: ws, cur, len =>
    if len + w.length + 1 ≤ maxChars then
      wrapAux maxChars ws (cur ++ [w]) (len + w.length + 1)
    else
      (if cur.isEmpty then [] else [cur]) ++ wrapAux maxChars ws [w] w.length

/-- The lines produced by `wrap_text`, as word lists. -/
def wrapLines (maxChars : Nat) (ws : List (List Char)) : List (List (List Char)) :=
  wrapAux maxChars ws [] 0

/-- The ASS line-break separator `'\\N'` used by `wrap_text` (two characters:
a backslash and an `N`). -/
def lineBreak : List Char := ['\\', 'N']

/-- `wrap_text(text, max_chars=24)` (app.py:3653-3673): greedy word wrap,
lines joined by `'\\N'`. -/
def wrap_text (text : List Char) (maxChars : Nat := 24) : List Char :=
  ijoin lineBreak ((wrapLines maxChars (pySplit text)).map (ijoin [' ']))

/-! ### Wrap lemmas -/

theorem wrapAux_flatten (maxChars : Nat) (ws : List (List Char)) :
    ∀ (cur : List (List Char)) (len : Nat),
      (wrapAux maxChars ws cur len).flatten = cur ++ ws := by
  induction ws with
  | nil =>
    intro cur len
    by_cases h : cur.isEmpty
    · simp [wrapAux, h, List.isEmpty_iff.mp h]
    · simp [wrapAux, h]
  | cons w ws ih =>
    intro cur len
    by_cases h : len + w.length + 1 ≤ maxChars
    · simp [wrapAux, h, ih]
    · by_cases hcur : cur.isEmpty
      · simp [wrapAux, h, hcur, ih, List.isEmpty_iff.mp hcur]
      · simp [wrapAux, h, hcur, ih]

theorem wrapAux_ne_nil (maxChars : Nat) (ws : List (List Char)) :
    ∀ (cur : List (List Char)) (len : Nat) (g : List (List Char)),
      g ∈ wrapAux maxChars ws cur len → g ≠ [] := by
  induction ws with
  | nil =>
    intro cur len g hg
    by_cases h : cur.isEmpty <;> simp [wrapAux, h] at hg
    subst hg
    intro heq
    exact h (by simp [heq])
  | cons w ws ih =>
    intro cur len g hg
    by_cases h : len + w.length + 1 ≤ maxChars
    · simp only [wrapAux, if_pos h] at hg
      exact ih _ _ g hg
    · simp only [wrapAux, if_neg h, List.mem_append] at hg
      rcases hg with hg | hg
      · by_cases hcur : cur.isEmpty <;> simp [hcur] at hg
        subst hg
        intro heq
        exact hcur (by simp [heq])
      · exact ih _ _ g hg

theorem ijoin_append (sep : List α) (g ys : List (List α))
    (hg : g ≠ []) (hys : ys ≠ []) :
    ijoin sep (g ++ ys) = ijoin sep g ++ sep ++ ijoin sep ys := by
  induction g with
  | nil => exact absurd rfl hg
  | cons a g ih =>
    cases g with
    | nil =>
      cases ys with
      | nil => exact absurd rfl hys
      | cons b t => simp [ijoin]
    | cons a' g' =>
      have h' : ijoin sep ((a' :: g') ++ ys) =
          ijoin sep (a' :: g') ++ sep ++ ijoin sep ys := ih (by simp)
      have hcons : (a :: a' :: g') ++ ys = a :: ((a' :: g') ++ ys) := by simp
      rw [hcons]
      have : ijoin sep (a :: ((a' :: g') ++ ys)) =
          a ++ sep ++ ijoin sep ((a' :: g') ++ ys) := by
        cases ys with
        | nil => exact absurd rfl hys
        | cons b t => simp [ijoin]
      rw [this, h', ijoin]
      simp [List.append_assoc]

theorem ijoin_map_ijoin (sep : List α) (gs : List (List (List α)))
    (hne : ∀ g ∈ gs, g ≠ []) :
    ijoin sep (gs.map (ijoin sep)) = ijoin sep gs.flatten := by
  induction gs with
  | nil => simp [ijoin]
  | cons g gs ih =>
    cases gs with
    | nil => simp [ijoin]
    | cons g' t =>
      have hg : g ≠ [] := hne g (by simp)
      have hg' : g' ≠ [] := hne g' (by simp)
      have hrest : ∀ x ∈ g' :: t, x ≠ [] := by
        intro x hx
        exact hne x (List.mem_cons_of_mem g hx)
      have hflat_ne : (g' :: t).flatten ≠ [] := by
        cases g' with
        | nil => exact absurd rfl hg'
        | cons c cs => simp
      calc ijoin sep ((g :: g' :: t).map (ijoin sep))
          = ijoin sep g ++ sep ++ ijoin sep ((g' :: t).map (ijoin sep)) := by
            simp [ijoin]
        _ = ijoin sep g ++ sep ++ ijoin sep (g' :: t).flatten := by
            rw [ih hrest]
        _ = ijoin sep (g ++ (g' :: t).flatten) := by
            rw [ijoin_append sep g _ hg hflat_ne]
        _ = ijoin sep (g :: g' :: t).flatten := by simp

/-! ## Slide duration (`create_video_ffmpeg`, app.py:3722-3734) -/

/-- `slide_duration = min(max(word_count / 3.5, 2.5), 6.0)` (app.py:3731-3732),
the no-narration estimate. -/
def estimateDuration (wordCount : Nat) : ℚ :=
  min (max ((wordCount : ℚ) / (7/2)) (5/2)) 6

/-- Lookup of a section in the voiceover result dict; `none` models both
`section_durations` being `None`/empty (falsy) and the key being absent. -/
def narrLookup {σ : Type} (narr : Option (σ → Option ℚ)) (s : σ) : Option ℚ :=
  match narr with
  | some m => m s
  | none => none

/-- Duration chosen for one slide (app.py:3723-3734): probed narration
duration + 1s padding when `section in section_durations`, otherwise the
word-count estimate over the (emoji-stripped) text. -/
def slideDuration {σ : Type} (narr : Option (σ → Option ℚ)) (s : σ)
    (text : List Char) : ℚ :=
  match narrLookup narr s with
  | some d => d + 1
  | none => estimateDuration (pySplit text).length

/-! ## Script sections and emoji stripping -/

/-- The six script sections, in the fixed order of
`sections = ['hook', 'fact1', 'fact2', 'fact3', 'fact4', 'payoff']`
(app.py:3698). -/
inductive Sect
  | hook | fact1 | fact2 | fact3 | fact4 | payoff
deriving DecidableEq, Repr

/-- `sections` (app.py:3698). -/
def sections : List Sect := [.hook, .fact1, .fact2, .fact3, .fact4, .payoff]

/-- A script row's six text segments (dict fields read by
`script.get(section, '')`). -/
structure Script where
  hook : List Char
  fact1 : List Char
  fact2 : List Char
  fact3 : List Char
  fact4 : List Char
  payoff : List Char

/-- `script.get(section, '')` (app.py:3712). -/
def scriptGet (sc : Script) : Sect → List Char
  | .hook => sc.hook
  | .fact1 => sc.fact1
  | .fact2 => sc.fact2
  | .fact3 => sc.fact3
  | .fact4 => sc.fact4
  | .payoff => sc.payoff

/-- Membership in the emoji regex character class of `strip_emojis`
(app.py:3610-3623). -/
def isEmojiChar (c : Char) : Bool :=
  let n := c.toNat
  decide (0x1F600 ≤ n ∧ n ≤ 0x1F64F) ||
  decide (0x1F300 ≤ n ∧ n ≤ 0x1F5FF) ||
  decide (0x1F680 ≤ n ∧ n ≤ 0x1F6FF) ||
  decide (0x1F1E0 ≤ n ∧ n ≤ 0x1F1FF) ||
  decide (0x2702 ≤ n ∧ n ≤ 0x27B0) ||
  decide (0x24C2 ≤ n ∧ n ≤ 0x1F251) ||
  decide (0x1F900 ≤ n ∧ n ≤ 0x1F9FF)

/-- `strip_emojis` (app.py:3610-3623): delete every character matched by the
emoji character class. -/
def strip_emojis (text : List Char) : List Char :=
  text.filter (fun c => !(isEmojiChar c))

/-! ## The per-slide render loop and final assembly (`create_video_ffmpeg`) -/

/-- Outcome of one ffmpeg slide invocation (app.py:3799): exit status 0,
non-zero exit status, or `subprocess.TimeoutExpired` after the 120s limit. -/
inductive RenderOutcome
  | ok | fail | timeout
deriving DecidableEq, Repr

/-- The `for idx, section in enumerate(sections)` loop of
`create_video_ffmpeg` (app.py:3710-3842).  Empty sections are skipped; a
successful render appends the slide (section, duration) to `slide_videos`; a
non-zero ffmpeg exit (or a generic per-slide exception) skips the slide and
continues.  A `TimeoutExpired` reaches the handler at app.py:3820, whose log
call at app.py:3824 reads the name `duration`, which is bound nowhere in
`create_video_ffmpeg` (the local is `slide_duration`); the resulting
`NameError` escapes the per-slide handlers and aborts the whole loop,
modelled as `none`. -/
def slideLoop (sc : Script) (narr : Option (Sect → Option ℚ))
    (render : Sect → RenderOutcome) :
    List Sect → List (Sect × ℚ) → Option (List (Sect × ℚ))
  | [], acc => some acc
  | s :: rest, acc =>
    let text := scriptGet sc s
    if text.isEmpty then
      slideLoop sc narr render rest acc
    else
      let stripped := strip_emojis text
      let dur := slideDuration narr s stripped
      match render s with
      | .ok => slideLoop sc narr render rest (acc ++ [(s, dur)])
      | .fail => slideLoop sc narr render rest acc
      | .timeout => none

/-- The value of `slide_videos` after the render loop (`none` = the loop was
aborted by the `NameError` raised in the timeout handler). -/
def renderedSlides (sc : Script) (narr : Option (Sect → Option ℚ))
    (render : Sect → RenderOutcome) : Option (List (Sect × ℚ)) :=
  slideLoop sc narr render sections []

/-- Observable outcome of `create_video_ffmpeg`: the returned boolean, the
ordered list of slides handed to the concat step, and whether the exit path
attempted to delete the temporary workspace directory. -/
structure AssembleResult where
  success : Bool
  clips : List (Sect × ℚ)
  workspaceCleanup : Bool
deriving DecidableEq, Repr

/-- `create_video_ffmpeg` (app.py:3595-3918), given the voiceover result
`narr`, the ffmpeg outcome per section, and the concat step's outcome.
Exit paths:
* loop aborted by the timeout handler's `NameError` → outer `except` at
  app.py:3907 removes the temp dir and returns `False`;
* `slide_videos` empty (app.py:3844-3846) → returns `False` with **no**
  cleanup of the temp directory;
* otherwise concat runs, cleanup is attempted on both concat outcomes
  (app.py:3871-3894), and the concat exit status decides the result. -/
def create_video_ffmpeg (sc : Script) (narr : Option (Sect → Option ℚ))
    (render : Sect → RenderOutcome) (concatOk : Bool) : AssembleResult :=
  match renderedSlides sc narr render with
  | none => ⟨false, [], true⟩
  | some [] => ⟨false, [], false⟩
  | some slides => if concatOk then ⟨true, slides, true⟩ else ⟨false, slides, true⟩

/-! ## Voiceover synthesis (`generate_voiceover`, app.py:3920-4081) -/

/-- Outcome of one section's narration attempt: the ElevenLabs HTTP call
fails (non-200 status or request exception), or it succeeds but the ffprobe
duration probe fails (non-zero exit or exception), or both succeed yielding a
probed duration. -/
inductive TTSOutcome
  | httpError | probeFail | ok (d : ℚ)
deriving DecidableEq

/-- One section's entry in `section_audios` (app.py:3965-4007): skipped when
the text is empty; present only when both the HTTP call and the ffprobe
probe succeed. -/
def voiceSection (sc : Script) (tts : Sect → TTSOutcome) (s : Sect) : Option ℚ :=
  if (scriptGet sc s).isEmpty then none
  else
    match tts s with
    | .ok d => some d
    | _ => none

/-- `generate_voiceover` (app.py:3920-4081): returns `None` when no section
produced audio (app.py:4009-4011), otherwise the per-section duration map. -/
def generate_voiceover (sc : Script) (tts : Sect → TTSOutcome) :
    Option (Sect → Option ℚ) :=
  if sections.all (fun s => (voiceSection sc tts s).isNone) then none
  else some (voiceSection sc tts)

/-! ## Script-generation dispatcher and worker
(`process_script_generation_queue` app.py:702-741,
`process_script_generation_job` app.py:516-700) -/

/-- A `script_generation_jobs` row, restricted to the columns the dispatcher
reads. -/
structure SGJob where
  id : Nat
  status : String
  createdAt : Nat
deriving DecidableEq, Repr

/-- Insert a job into a list sorted by ascending `created_at`. -/
def insertByCreated (j : SGJob) : List SGJob → List SGJob
  | [] => [j]
  | k :: ks =>
    if j.createdAt ≤ k.createdAt then j :: k :: ks
    else k :: insertByCreated j ks

/-- `ORDER BY created_at ASC` (insertion sort). -/
def sortByCreated : List SGJob → List SGJob
  | [] => []
  | j :: js => insertByCreated j (sortByCreated js)

/-- One tick of `process_script_generation_queue` (app.py:702-741): `SELECT
id FROM script_generation_jobs WHERE status = 'pending' ORDER BY created_at
ASC LIMIT 3`, then start one thread per selected id.  Returns the dispatched
ids and the post-tick table: the tick itself issues no `UPDATE`, so the table
is returned unchanged. -/
def scriptQueueTick (jobs : List SGJob) : List Nat × List SGJob :=
  let pending := (sortByCreated (jobs.filter (fun j => j.status = "pending"))).take 3
  (pending.map (fun j => j.id), jobs)

/-- The claim step executed by the dispatched worker
(`process_script_generation_job`, app.py:541-547): `UPDATE
script_generation_jobs SET status = 'processing', started_at =
CURRENT_TIMESTAMP WHERE id = ?`. -/
def claimJob (jobs : List SGJob) (jobId : Nat) : List SGJob :=
  jobs.map (fun j => if j.id = jobId then { j with status := "processing" } else j)

/-- Run the claim step of every dispatched worker, in dispatch order. -/
def runWorkersClaim (jobs : List SGJob) (ids : List Nat) : List SGJob :=
  ids.foldl claimJob jobs

/-! ## Script-record validation and job completion
(`process_script_generation_job`, app.py:628-679) -/

/-- A provider record, modelled by the set of field names it contains (the
validation step only tests key membership). -/
abbrev ProviderRecord := List String

/-- `required = ['topic', 'hook', 'fact1', 'fact2', 'fact3', 'fact4',
'payoff']` (app.py:634). -/
def requiredFields : List String :=
  ["topic", "hook", "fact1", "fact2", "fact3", "fact4", "payoff"]

/-- `missing = [f for f in required if f not in script]` (app.py:635). -/
def missingFields (rec : ProviderRecord) : List String :=
  requiredFields.filter (fun f => !(rec.contains f))

/-- The save loop (app.py:631-652): records with missing required fields are
skipped (`continue`), the rest are inserted.  Returns the persisted records
in order. -/
def saveScripts : List ProviderRecord → List ProviderRecord
  | [] => []
  | r :: rest =>
    if missingFields r ≠ [] then saveScripts rest
    else r :: saveScripts rest

/-- Terminal state written to the `script_generation_jobs` row. -/
structure SGJobOutcome where
  status : String
  errorMessage : Option String
  savedCount : Nat
deriving DecidableEq, Repr

/-- The completion logic of `process_script_generation_job` (app.py:628-679):
`if scripts:` run the save loop and mark the job `completed`; an empty (or
falsy) provider result marks it `failed` with the fixed message. -/
def finishScriptJob (scripts : List ProviderRecord) : SGJobOutcome :=
  if scripts.isEmpty then
    ⟨"failed", some "AI provider returned no scripts", 0⟩
  else
    ⟨"completed", none, (saveScripts scripts).length⟩

/-! ## Publishing a scheduled post / queue entry
(`post_scheduled_videos` app.py:114-233, `process_video_queue`
app.py:235-359) -/

/-- The joined row a publish attempt works on, restricted to the fields the
control flow reads. -/
structure PublishItem where
  id : Nat
  videoId : Nat
  fileExists : Bool
  hasCreds : Bool
  autoShare : Bool
deriving DecidableEq, Repr

/-- The writes a publish attempt performs: the job row's new status /
remote ids / error bookkeeping, and the `UPDATE videos` (remote id, with
`posted_at` set alongside) when it happens. -/
structure PublishUpdate where
  status : String
  facebookVideoId : Option String
  storyId : Option String
  errorMessage : Option String
  retryDelta : Nat
  videoUpdate : Option (Nat × String)
deriving DecidableEq, Repr

/-- The body of `post_scheduled_videos` for one due row (app.py:137-225):
file-existence check, credential check, upload, optional story re-share,
then the `UPDATE scheduled_posts` and (on success only) `UPDATE videos`.
`upload` is `post_video_to_facebook`'s return value, `story` is
`share_reel_to_story`'s. -/
def processScheduledPostItem (item : PublishItem)
    (upload : Option String) (story : Option String) : PublishUpdate :=
  if !item.fileExists then
    ⟨"failed", none, none, some "Video file not found", 1, none⟩
  else if !item.hasCreds then
    ⟨"failed", none, none, some "Facebook credentials not configured", 1, none⟩
  else
    match upload with
    | some fbid =>
      let sid := if item.autoShare then story else none
      ⟨"posted", some fbid, sid, none, 0, some (item.videoId, fbid)⟩
    | none =>
      ⟨"failed", none, none, some "Facebook upload failed", 1, none⟩

/-- The body of `process_video_queue` for the selected queue entry
(app.py:266-351): the same checks and writes against `video_queue` and
`videos`. -/
def processQueueItem (item : PublishItem)
    (upload : Option String) (story : Option String) : PublishUpdate :=
  if !item.fileExists then
    ⟨"failed", none, none, some "Video file not found", 1, none⟩
  else if !item.hasCreds then
    ⟨"failed", none, none, some "Facebook credentials not configured", 1, none⟩
  else
    match upload with
    | some fbid =>
      let sid := if item.autoShare then story else none
      ⟨"posted", some fbid, sid, none, 0, some (item.videoId, fbid)⟩
    | none =>
      ⟨"failed", none, none, some "Facebook upload failed", 1, none⟩

/-! ## Dispatcher/worker lemmas -/

theorem mem_insertByCreated {j k : SGJob} {l : List SGJob}
    (h : j ∈ insertByCreated k l) : j = k ∨ j ∈ l := by
  induction l with
  | nil => simpa [insertByCreated] using h
  | cons a t ih =>
    by_cases hc : k.createdAt ≤ a.createdAt
    · simp only [insertByCreated, if_pos hc, List.mem_cons] at h
      rcases h with h | h | h
      · exact Or.inl h
      · exact Or.inr (by simp [h])
      · exact Or.inr (List.mem_cons_of_mem a h)
    · simp only [insertByCreated, if_neg hc, List.mem_cons] at h
      rcases h with h | h
      · exact Or.inr (by simp [h])
      · rcases ih h with h' | h'
        · exact Or.inl h'
        · exact Or.inr (List.mem_cons_of_mem a h')

theorem mem_sortByCreated {j : SGJob} {l : List SGJob}
    (h : j ∈ sortByCreated l) : j ∈ l := by
  induction l with
  | nil => exact absurd h (List.not_mem_nil j)
  | cons a t ih =>
    rcases mem_insertByCreated (show j ∈ insertByCreated a (sortByCreated t) from h)
      with h' | h'
    · simp [h']
    · exact List.mem_cons_of_mem a (ih h')

theorem claimJob_claims (jobs : List SGJob) (i : Nat) :
    ∀ j ∈ claimJob jobs i, j.id = i → j.status = "processing" := by
  intro j hj hid
  simp only [claimJob, List.mem_map] at hj
  obtain ⟨k, _, hkj⟩ := hj
  by_cases h : k.id = i
  · rw [if_pos h] at hkj
    rw [← hkj]
  · rw [if_neg h] at hkj
    rw [← hkj] at hid
    exact absurd hid h

theorem claimJob_preserves (jobs : List SGJob) (i x : Nat)
    (h : ∀ j ∈ jobs, j.id = i → j.status = "processing") :
    ∀ j ∈ claimJob jobs x, j.id = i → j.status = "processing" := by
  intro j hj hid
  simp only [claimJob, List.mem_map] at hj
  obtain ⟨k, hk, hkj⟩ := hj
  by_cases hx : k.id = x
  · rw [if_pos hx] at hkj
    rw [← hkj]
  · rw [if_neg hx] at hkj
    rw [← hkj]
    rw [← hkj] at hid
    exact h k hk hid

theorem runWorkersClaim_preserves (ids : List Nat) :
    ∀ (jobs : List SGJob) (i : Nat),
      (∀ j ∈ jobs, j.id = i → j.status = "processing") →
      ∀ j ∈ runWorkersClaim jobs ids, j.id = i → j.status = "processing" := by
  induction ids with
  | nil =>
    intro jobs i h
    exact h
  | cons x rest ih =>
    intro jobs i h
    have : runWorkersClaim jobs (x :: rest) = runWorkersClaim (claimJob jobs x) rest := rfl
    rw [this]
    exact ih (claimJob jobs x) i (claimJob_preserves jobs i x h)

theorem runWorkersClaim_claims (ids : List Nat) :
    ∀ (jobs : List SGJob) (i : Nat), i ∈ ids →
      ∀ j ∈ runWorkersClaim jobs ids, j.id = i → j.status = "processing" := by
  induction ids with
  | nil => intro jobs i hi; exact absurd hi (List.not_mem_nil i)
  | cons x rest ih =>
    intro jobs i hi j hj hid
    have hstep : runWorkersClaim jobs (x :: rest) = runWorkersClaim (claimJob jobs x) rest := rfl
    rw [hstep] at hj
    rcases List.mem_cons.mp hi with h | h
    · subst h
      exact runWorkersClaim_preserves rest (claimJob jobs i) i
        (claimJob_claims jobs i) j hj hid
    · exact ih (claimJob jobs x) i h j hj hid

/-! ## Render-loop lemma -/

theorem slideLoop_all_ok (sc : Script) (narr : Option (Sect → Option ℚ)) :
    ∀ (secs : List Sect) (acc : List (Sect × ℚ)),
      slideLoop sc narr (fun _ => .ok) secs acc =
        some (acc ++ (secs.filter (fun s => !(scriptGet sc s).isEmpty)).map
          (fun s => (s, slideDuration narr s (strip_emojis (scriptGet sc s))))) := by
  intro secs
  induction secs with
  | nil => intro acc; simp [slideLoop]
  | cons s rest ih =>
    intro acc
    by_cases h : (scriptGet sc s).isEmpty
    · simp [slideLoop, h, ih]
    · simp [slideLoop, h, ih]

/-! ## Claims -/

/-- Claim C1, counterexample.  The claim says the dispatcher tick moves a
pending `script_generation_jobs` row out of `pending` before dispatching it,
so no row is dispatched on two consecutive ticks.  On the table holding the
single pending job 1, a tick dispatches job 1 yet leaves the table unchanged
(still `pending`), and a second tick on the resulting table dispatches job 1
again. -/
theorem claim_C1_counterexample :
    (scriptQueueTick [⟨1, "pending", 0⟩]).1 = [1] ∧
    (scriptQueueTick [⟨1, "pending", 0⟩]).2 = [⟨1, "pending", 0⟩] ∧
    (scriptQueueTick (scriptQueueTick [⟨1, "pending", 0⟩]).2).1 = [1] := by
  decide

/-- Claim C1, amended.  The tick itself performs no status transition: the
`pending → processing` claim is executed by the dispatched worker
(`process_script_generation_job`).  Provided every worker dispatched in a
tick has run its claim step before the next tick, every dispatched row then
reads `processing` and the next tick dispatches none of the same rows. -/
theorem claim_C1_amended (jobs : List SGJob) (i : Nat)
    (hi : i ∈ (scriptQueueTick jobs).1) :
    (∀ j ∈ runWorkersClaim jobs (scriptQueueTick jobs).1,
      j.id = i → j.status = "processing") ∧
    i ∉ (scriptQueueTick (runWorkersClaim jobs (scriptQueueTick jobs).1)).1 := by
  have hclaims := runWorkersClaim_claims (scriptQueueTick jobs).1 jobs i hi
  refine ⟨hclaims, ?_⟩
  intro hmem
  simp only [scriptQueueTick, List.mem_map] at hmem
  obtain ⟨j, hj, hjid⟩ := hmem
  have hj1 : j ∈ sortByCreated
      ((runWorkersClaim jobs (scriptQueueTick jobs).1).filter
        (fun j => j.status = "pending")) :=
    List.take_subset 3 _ hj
  have hj2 := mem_sortByCreated hj1
  have hj3 := List.mem_filter.mp hj2
  have hpend : j.status = "pending" := by
    have := hj3.2
    simpa using this
  have hproc : j.status = "processing" := hclaims j hj3.1 hjid
  rw [hpend] at hproc
  exact absurd hproc (by decide)

/-- Claim C1, witness for the amended theorem at the one-job table. -/
theorem claim_C1_witness :
    (∀ j ∈ runWorkersClaim [⟨1, "pending", 0⟩]
        (scriptQueueTick [(⟨1, "pending", 0⟩ : SGJob)]).1,
      j.id = 1 → j.status = "processing") ∧
    1 ∉ (scriptQueueTick (runWorkersClaim [⟨1, "pending", 0⟩]
        (scriptQueueTick [(⟨1, "pending", 0⟩ : SGJob)]).1)).1 :=
  claim_C1_amended [⟨1, "pending", 0⟩] 1 (by decide)

/-- Script with two non-empty segments used for the C2 failing input. -/
def c2Script : Script := ⟨"H".data, "F1".data, [], [], [], "P".data⟩

/-- Render outcomes for the C2 failing input: exactly the `fact1` slide's
ffmpeg run exceeds the 120s timeout; every other invocation succeeds. -/
def c2Render : Sect → RenderOutcome
  | .fact1 => .timeout
  | _ => .ok

/-- Claim C2, evaluation at the failing input.  The claim (and the code's own
"Clean up and continue" comment) says a timed-out slide is skipped like any
renderer failure and the remaining segments still yield a successful video.
Instead the timeout handler's log line (app.py:3824) reads the undefined name
`duration`, so the `NameError` aborts the whole run and `create_video_ffmpeg`
returns `False` with no clips; the same script with a plain (non-timeout)
renderer failure on the same slide does return success. -/
theorem claim_C2_code_bug :
    create_video_ffmpeg c2Script none c2Render true =
      ⟨false, [], true⟩ ∧
    (create_video_ffmpeg c2Script none
      (fun s => if s = .fact1 then .fail else .ok) true).success = true := by
  decide

/-- Claim C3: with no narration entry for the section, the slide duration is
exactly `clamp(word_count / 3.5, 2.5, 6.0)`, hence always within
`[2.5, 6.0]`; 0 words give 2.5s and 1000 words give 6.0s. -/
theorem claim_C3 {narr : Option (Sect → Option ℚ)} (s : Sect) (text : List Char)
    (h : narrLookup narr s = none) :
    slideDuration narr s text =
      min (max (((pySplit text).length : ℚ) / (7/2)) (5/2)) 6 ∧
    (5/2 : ℚ) ≤ slideDuration narr s text ∧
    slideDuration narr s text ≤ 6 ∧
    estimateDuration 0 = 5/2 ∧
    estimateDuration 1000 = 6 := by
  have hd : slideDuration narr s text =
      min (max (((pySplit text).length : ℚ) / (7/2)) (5/2)) 6 := by
    simp [slideDuration, h, estimateDuration]
  have h0 : estimateDuration 0 = 5/2 := by
    unfold estimateDuration
    rw [show ((0 : Nat) : ℚ) / (7/2) = 0 by norm_num]
    rw [max_eq_right (by norm_num : (0 : ℚ) ≤ 5/2)]
    exact min_eq_left (by norm_num)
  have h1000 : estimateDuration 1000 = 6 := by
    unfold estimateDuration
    rw [max_eq_left (by norm_num : (5/2 : ℚ) ≤ ((1000 : Nat) : ℚ) / (7/2))]
    exact min_eq_right (by norm_num)
  refine ⟨hd, ?_, ?_, h0, h1000⟩
  · rw [hd]
    exact le_min (le_max_right _ _) (by norm_num)
  · rw [hd]
    exact min_le_right _ _

/-- Claim C3, witness: an empty no-narration segment gets exactly 2.5s. -/
theorem claim_C3_witness :
    narrLookup (none : Option (Sect → Option ℚ)) Sect.hook = none ∧
    slideDuration (none : Option (Sect → Option ℚ)) Sect.hook [] =
      min (max (((pySplit []).length : ℚ) / (7/2)) (5/2)) 6 :=
  ⟨rfl, (@claim_C3 none Sect.hook [] rfl).1⟩

/-- Claim C4, counterexample.  The claim says that when every provider record
fails validation the job is marked `failed`.  On the one-record list whose
record carries only the `topic` field, nothing is saved, yet the job is
marked `completed`, not `failed`. -/
theorem claim_C4_counterexample :
    missingFields ["topic"] ≠ [] ∧
    saveScripts [["topic"]] = [] ∧
    (finishScriptJob [["topic"]]).status = "completed" ∧
    (finishScriptJob [["topic"]]).status ≠ "failed" := by
  decide

/-- Claim C4, amended.  Records missing a required field are dropped without
being saved (exactly the fully-valid records are persisted, in order), but
the job is marked `failed` (message "AI provider returned no scripts") only
when the provider returned an empty list; any non-empty list — even one in
which every record is invalid and zero records were persisted — marks the
job `completed`. -/
theorem claim_C4_amended (scripts : List ProviderRecord) :
    saveScripts scripts = scripts.filter (fun r => missingFields r = []) ∧
    (finishScriptJob scripts).status =
      (if scripts.isEmpty then "failed" else "completed") ∧
    (finishScriptJob scripts).errorMessage =
      (if scripts.isEmpty then some "AI provider returned no scripts" else none) := by
  refine ⟨?_, ?_, ?_⟩
  · induction scripts with
    | nil => simp [saveScripts]
    | cons r rest ih =>
      by_cases h : missingFields r = []
      · simp [saveScripts, h, ih]
      · simp [saveScripts, h, ih]
  · unfold finishScriptJob
    by_cases h : scripts.isEmpty <;> simp [h]
  · unfold finishScriptJob
    by_cases h : scripts.isEmpty <;> simp [h]

/-- Script with a single non-empty segment used for the C5 counterexample and
witness. -/
def c5Script : Script := ⟨"H".data, [], [], [], [], []⟩

/-- Claim C5, counterexample.  The claim says the temporary workspace
directory is deleted on every exit path, including the zero-segments-rendered
one.  When the only non-empty slide's render fails, `create_video_ffmpeg`
takes the `if not slide_videos` exit (app.py:3844-3846) and returns `False`
without touching the workspace directory. -/
theorem claim_C5_counterexample :
    renderedSlides c5Script none (fun _ => .fail) = some [] ∧
    (create_video_ffmpeg c5Script none (fun _ => .fail) true).workspaceCleanup
      = false := by
  decide

/-- Claim C5, amended.  Workspace cleanup is attempted on the success path,
the concatenation-failure path, and every exception path (including the
timeout-induced abort) — every exit except the zero-segments-rendered path,
which returns `False` without deleting the workspace directory. -/
theorem claim_C5_amended (sc : Script) (narr : Option (Sect → Option ℚ))
    (render : Sect → RenderOutcome) (concatOk : Bool)
    (h : renderedSlides sc narr render ≠ some []) :
    (create_video_ffmpeg sc narr render concatOk).workspaceCleanup = true := by
  unfold create_video_ffmpeg
  cases hr : renderedSlides sc narr render with
  | none => rfl
  | some slides =>
    cases slides with
    | nil => exact absurd hr h
    | cons x xs => cases concatOk <;> rfl

/-- Claim C5, witness: a successful run attempts workspace cleanup. -/
theorem claim_C5_witness :
    renderedSlides c5Script none (fun _ => .ok) ≠ some [] ∧
    (create_video_ffmpeg c5Script none (fun _ => .ok) true).workspaceCleanup
      = true :=
  ⟨by decide, claim_C5_amended c5Script none (fun _ => .ok) true (by decide)⟩

/-- Claim C6: for every input text, the 24-character greedy word wrap never
splits a word — the lines flatten back to the exact word sequence of the
text — and re-joining the lines with single spaces (i.e. replacing each
`'\\N'` line-break separator of `wrap_text` by a space) reconstructs the
whitespace-normalized original, the space-join of the text's words. -/
theorem claim_C6 (text : List Char) :
    wrap_text text =
      ijoin lineBreak ((wrapLines 24 (pySplit text)).map (ijoin [' '])) ∧
    (wrapLines 24 (pySplit text)).flatten = pySplit text ∧
    ijoin [' '] ((wrapLines 24 (pySplit text)).map (ijoin [' '])) =
      ijoin [' '] (pySplit text) := by
  have h1 : (wrapLines 24 (pySplit text)).flatten = pySplit text := by
    simpa [wrapLines] using wrapAux_flatten 24 (pySplit text) [] 0
  refine ⟨rfl, h1, ?_⟩
  have hne : ∀ g ∈ wrapLines 24 (pySplit text), g ≠ [] :=
    fun g hg => wrapAux_ne_nil 24 (pySplit text) [] 0 g hg
  rw [ijoin_map_ijoin [' '] _ hne, h1]

/-- Script of the C7 scenario: `fact2` is the empty segment. -/
def c7Script : Script := ⟨"H".data, "F1".data, [], "F3".data, "F4".data, "P".data⟩

/-- Claim C7: the assembler produces no clip for an empty segment and hands
the non-empty segments' clips to concatenation in the fixed order hook,
fact1..fact4, payoff; for the scenario script with `fact2` empty (all renders
succeeding), the run succeeds with exactly the 5 clips H, F1, F3, F4, P in
order. -/
theorem claim_C7 :
    (∀ (sc : Script) (narr : Option (Sect → Option ℚ)) (concatOk : Bool),
      (create_video_ffmpeg sc narr (fun _ => .ok) concatOk).clips.map Prod.fst =
        sections.filter (fun s => !(scriptGet sc s).isEmpty)) ∧
    (create_video_ffmpeg c7Script none (fun _ => .ok) true).success = true ∧
    (create_video_ffmpeg c7Script none (fun _ => .ok) true).clips.map Prod.fst =
      [.hook, .fact1, .fact3, .fact4, .payoff] := by
  refine ⟨?_, by decide, by decide⟩
  intro sc narr concatOk
  unfold create_video_ffmpeg renderedSlides
  rw [slideLoop_all_ok sc narr sections []]
  simp only [List.nil_append]
  cases hf : sections.filter (fun s => !(scriptGet sc s).isEmpty) with
  | nil => simp
  | cons a t =>
    have hid : (Prod.fst ∘ fun s : Sect =>
        (s, slideDuration narr s (strip_emojis (scriptGet sc s)))) = id := rfl
    cases concatOk <;> simp [hid]

/-- Claim C8: when the primary upload returns a remote media id but the story
re-share fails (`share_reel_to_story` returns `None`), the scheduled post /
queue entry is still marked `posted` with the remote media id populated and a
null story id — the story failure never changes the publish's terminal
status. -/
theorem claim_C8 (item : PublishItem) (fbid : String)
    (hfile : item.fileExists = true) (hcreds : item.hasCreds = true)
    (hshare : item.autoShare = true) :
    processScheduledPostItem item (some fbid) none =
      ⟨"posted", some fbid, none, none, 0, some (item.videoId, fbid)⟩ ∧
    processQueueItem item (some fbid) none =
      ⟨"posted", some fbid, none, none, 0, some (item.videoId, fbid)⟩ := by
  constructor <;>
    simp [processScheduledPostItem, processQueueItem, hfile, hcreds, hshare]

/-- Claim C8, witness. -/
theorem claim_C8_witness :
    processScheduledPostItem ⟨1, 2, true, true, true⟩ (some "fb123") none =
      ⟨"posted", some "fb123", none, none, 0, some (2, "fb123")⟩ ∧
    processQueueItem ⟨1, 2, true, true, true⟩ (some "fb123") none =
      ⟨"posted", some "fb123", none, none, 0, some (2, "fb123")⟩ :=
  claim_C8 ⟨1, 2, true, true, true⟩ "fb123" rfl rfl rfl

/-- Claim C9: a publish attempt that ends `posted` also updates the
referenced `videos` row (remote id plus `posted_at`), and an attempt that
does not end `posted` (missing file, missing credentials, failed upload)
leaves the `videos` row untouched — for both the scheduled-post sweep and
the queue processor. -/
theorem claim_C9 (item : PublishItem) (upload story : Option String) :
    ((processScheduledPostItem item upload story).status = "posted" →
      (processScheduledPostItem item upload story).videoUpdate =
        upload.map (fun fbid => (item.videoId, fbid))) ∧
    ((processScheduledPostItem item upload story).status ≠ "posted" →
      (processScheduledPostItem item upload story).videoUpdate = none) ∧
    ((processQueueItem item upload story).status = "posted" →
      (processQueueItem item upload story).videoUpdate =
        upload.map (fun fbid => (item.videoId, fbid))) ∧
    ((processQueueItem item upload story).status ≠ "posted" →
      (processQueueItem item upload story).videoUpdate = none) := by
  unfold processScheduledPostItem processQueueItem
  by_cases hfile : item.fileExists
  · by_cases hcreds : item.hasCreds
    · cases upload with
      | some fbid => simp [hfile, hcreds]
      | none => simp [hfile, hcreds]
    · simp [hfile, hcreds]
  · simp [hfile]

/-- Claim C9, witness: a successful queue publish writes the videos row; a
file-missing scheduled post leaves it unchanged. -/
theorem claim_C9_witness :
    (processQueueItem ⟨1, 2, true, true, false⟩ (some "fb") none).videoUpdate =
      some (2, "fb") ∧
    (processScheduledPostItem ⟨1, 2, false, true, false⟩ none none).videoUpdate =
      none := by
  constructor
  · exact (claim_C9 ⟨1, 2, true, true, false⟩ (some "fb") none).2.2.1 (by decide)
  · exact (claim_C9 ⟨1, 2, false, true, false⟩ none none).2.1 (by decide)

/-- Claim C10: a section whose TTS HTTP call returns 200 but whose ffprobe
duration probe fails is excluded from `generate_voiceover`'s returned map,
so the assembler's duration for that section falls back to the word-count
estimate instead of `probed_duration + 1.0`. -/
theorem claim_C10 (sc : Script) (tts : Sect → TTSOutcome) (s : Sect)
    (h : tts s = .probeFail) (text : List Char) :
    narrLookup (generate_voiceover sc tts) s = none ∧
    slideDuration (generate_voiceover sc tts) s text =
      estimateDuration (pySplit text).length := by
  have hv : voiceSection sc tts s = none := by
    unfold voiceSection
    by_cases he : (scriptGet sc s).isEmpty <;> simp [he, h]
  have hl : narrLookup (generate_voiceover sc tts) s = none := by
    unfold generate_voiceover narrLookup
    by_cases hall : sections.all (fun s => (voiceSection sc tts s).isNone) <;>
      simp [hall, hv]
  exact ⟨hl, by simp [slideDuration, hl]⟩

/-- Claim C10, witness: with every section's probe failing on a script whose
hook is "H", the hook still gets the estimated duration. -/
theorem claim_C10_witness :
    ((fun _ => TTSOutcome.probeFail) Sect.hook) = TTSOutcome.probeFail ∧
    slideDuration
      (generate_voiceover ⟨"H".data, [], [], [], [], []⟩ (fun _ => .probeFail))
      Sect.hook "H".data =
      estimateDuration (pySplit "H".data).length :=
  ⟨rfl, (claim_C10 ⟨"H".data, [], [], [], [], []⟩ (fun _ => .probeFail)
    Sect.hook rfl "H".data).2⟩

end ViralReels
